import Mathlib

/-!
Verification development for the lab-reader-bot repository.

The repository has two variants of the same Telegram-bot flow:
* `src/api/index.py` — the webhook (serverless) variant, with Supabase as a
  durable tier and `context.user_data` as the in-process volatile tier;
* `src/bot.py` — the polling variant, volatile `context.user_data` only.

Every definition below is a direct translation of the Python source named in
its doc comment.  `Option String` models a Python value that may be absent
(`dict.get` returning `None`); Python truthiness of such a value is modelled
by `pyTruthy`.
-/

namespace LabReader

/-- The in-process volatile session state of the webhook variant:
`context.user_data` holding the optional keys `task` and `lang`
(src/api/index.py lines 104, 139, 178-179). -/
structure UserData where
  task : Option String
  lang : Option String
  deriving DecidableEq, Repr

/-- Python truthiness of an optional string: `None` and the empty string are
falsy, every other string is truthy. -/
def pyTruthy : Option String → Bool
  | none => false
  | some s => s ≠ ""

/-- Python `x or d` for an optional string `x` and a string default `d`. -/
def pyOrStr (o : Option String) (d : String) : String :=
  match o with
  | some s => if s = "" then d else s
  | none => d

/-- Session-load of the task in the language-selection step of
`button_callback` (src/api/index.py lines 141-148):
`task = context.user_data.get("task")`; `if not task and supabase:` fetch the
`task` column of `user_state` for this chat; finally `task = task or
"analysis"`.  `volatileTask` is the `user_data` value, `durableTask` the
Supabase value (`none` when the query returns no row or a null field), and
`supabaseConfigured` tells whether a Supabase client exists. -/
def loadTaskLang (volatileTask : Option String) (supabaseConfigured : Bool)
    (durableTask : Option String) : String :=
  let task := volatileTask
  let task := if !pyTruthy task && supabaseConfigured then durableTask else task
  pyOrStr task "analysis"

/-- Session-load of the task in `handle_file` (src/api/index.py line 178):
`context.user_data.get("task", "analysis")` — volatile tier only. -/
def loadTaskFile (ud : UserData) : String := ud.task.getD "analysis"

/-- Session-load of the language in `handle_file` (src/api/index.py line 179):
`context.user_data.get("lang", "English")` — volatile tier only. -/
def loadLangFile (ud : UserData) : String := ud.lang.getD "English"

/-- One step of Python `str.replace(pat, rep)` restricted to `fuel` scanning
steps.  At each position: if `pat` is a non-empty leading pattern of the rest
of the text, emit `rep` and skip `pat.length` characters; otherwise keep one
character and move on.  `fuel` bounds the recursion; with `fuel = l.length`
the whole text is scanned, because every step consumes at least one
character. -/
def pyReplaceFuel (pat rep : List Char) : Nat → List Char → List Char
  | 0, l => l
  | _ + 1, [] => []
  | fuel + 1, c :: rest =>
    if pat ≠ [] ∧ pat.isPrefixOf (c :: rest) then
      rep ++ pyReplaceFuel pat rep fuel ((c :: rest).drop pat.length)
    else
      c :: pyReplaceFuel pat rep fuel rest

/-- Python `str.replace(pat, rep)` on character lists, for a non-empty
pattern: replace every non-overlapping occurrence left to right. -/
def pyReplace (l pat rep : List Char) : List Char := pyReplaceFuel pat rep l.length l

/-- Python `str.strip()` on character lists: drop leading and trailing
whitespace. -/
def pyStrip (l : List Char) : List Char :=
  ((l.dropWhile Char.isWhitespace).reverse.dropWhile Char.isWhitespace).reverse

/-- Markdown clean-up of the analysis text before the rich-formatted send
(src/api/index.py lines 213-215):
`analysis_text.replace("```markdown", "").replace("```", "")`, then
`.replace("**", "*").strip()`. -/
def sanitize (s : String) : String :=
  String.mk (pyStrip (pyReplace (pyReplace (pyReplace s.data
    "```markdown".data []) "```".data []) "**".data "*".data))

/-- Modelled from the spec: `load(userId)` returns the durable-tier value if
present, else a volatile-tier cached value if present, else the default.
Stated here only to be compared with `loadTaskLang`, which is translated from
the source. -/
def loadTaskSpec (volatileTask : Option String) (durableTask : Option String) : String :=
  match durableTask with
  | some t => t
  | none => match volatileTask with
    | some t => t
    | none => "analysis"

/-- Python `str.capitalize()`: first character uppercased, the rest
lowercased (used in the message texts of src/api/index.py lines 121, 166). -/
def pyCapitalize (s : String) : String :=
  match s.data with
  | [] => ""
  | c :: rest => String.mk (c.toUpper :: rest.map Char.toLower)

/-- The emoji lookup `task_emojis.get(task, "📊")` of src/api/index.py lines
149-155. -/
def taskEmoji (task : String) : String :=
  if task = "analysis" then "📊"
  else if task = "medication" then "💊"
  else if task = "prescription" then "📋"
  else if task = "radiography" then "🦴"
  else "📊"

/-- The rate-limit message of src/api/index.py line 257. -/
def RATE_LIMIT_MSG : String :=
  "⚠️ **Gemini API Quota Exceeded**\n\nPlease wait about 60 seconds and try again."

/-- The re-engagement message of src/api/index.py line 252, sent together
with the main menu keyboard. -/
def DONE_MENU_MSG : String :=
  "✅ *Done!*\n\nWould you like to analyze another document?"

/-- The status message of src/api/index.py line 188. -/
def processingMsg (task lang : String) : String :=
  "Processing your " ++ task ++ " in " ++ lang ++ "... ⏳"

/-- The JSON body of a relay response in the webhook variant: the fields read
by src/api/index.py lines 206, 222, 260. -/
structure RespJson where
  analysis : Option String
  voice : Option String
  detail : Option String
  deriving DecidableEq, Repr

/-- A relay HTTP response as observed by src/api/index.py: status code, the
parsed JSON body (`.error e` models `response.json()` raising with message
`e`), and `response.text`. -/
structure Response where
  status : Nat
  body : Except String RespJson
  rawText : String
  deriving Repr

/-- The outbound request built by src/api/index.py lines 197-203: endpoint
`/lab/read-{task}`, a multipart file part named `document.pdf` holding the
document bytes, and the `language` query parameter. -/
structure RelayRequest where
  endpoint : String
  fileName : String
  fileBytes : List Nat
  language : String
  deriving DecidableEq, Repr

/-- An outbound transport action of the webhook variant: a plain reply, an
edit of the status message, a voice note, or a reply carrying the main-menu
keyboard. -/
inductive Outgoing where
  | reply (text : String) (markdown : Bool)
  | editStatus (text : String) (markdown : Bool)
  | voiceNote
  | menuReply (text : String)
  deriving DecidableEq, Repr

/-- The observable behaviour of `handle_file` (src/api/index.py lines
173-267) after the document bytes are in hand, as a function of the session
`ud`, the relay outcome `result` (`.error e` models any raised exception with
text `e`, covering download failures, connection errors and timeouts), and
two environment flags: `richSendFails` tells whether the Markdown-formatted
`edit_text` of line 217 raises, `voiceOk` whether the voice decode-and-send
of lines 224-230 succeeds.  Returns the new `user_data`, the relay request
parameters computed at lines 197-203 (issued unless a prior exception aborts
the turn), and the ordered list of outbound actions. -/
def handleFile (ud : UserData) (fileBytes : List Nat) (result : Except String Response)
    (richSendFails voiceOk : Bool) : UserData × RelayRequest × List Outgoing :=
  let task := loadTaskFile ud
  let lang := loadLangFile ud
  let req : RelayRequest := ⟨"/lab/read-" ++ task, "document.pdf", fileBytes, lang⟩
  let statusMsg := Outgoing.reply (processingMsg task lang) false
  match result with
  | .error e => (ud, req, [statusMsg, .editStatus ("❌ Error: " ++ e) false])
  | .ok r =>
    if r.status = 200 then
      match r.body with
      | .error e => (ud, req, [statusMsg, .editStatus ("❌ Error: " ++ e) false])
      | .ok j =>
        let analysisText := j.analysis.getD "No results."
        let sendMsg := if richSendFails then Outgoing.editStatus analysisText false
          else Outgoing.editStatus (sanitize analysisText) true
        let voiceMsgs := match j.voice with
          | some _ => if voiceOk then [Outgoing.voiceNote] else []
          | none => []
        (⟨none, none⟩, req, [statusMsg, sendMsg] ++ voiceMsgs ++ [.menuReply DONE_MENU_MSG])
    else if r.status = 429 then
      (ud, req, [statusMsg, .editStatus RATE_LIMIT_MSG true])
    else
      let detail := match r.body with
        | .ok j => j.detail.getD "Unknown Error"
        | .error _ => if r.rawText = "" then "Unknown Error" else r.rawText
      (ud, req,
        [statusMsg, .editStatus ("❌ API Error (" ++ toString r.status ++ "): " ++ detail) false])

/-- An outbound transport action of `button_callback`: an edit of the
message the button belonged to. -/
inductive CbOut where
  | editMsg (text : String) (markdown : Bool)
  deriving DecidableEq, Repr

/-- The task branch of `button_callback` (src/api/index.py lines 87-124).
`supabaseConfigured` tells whether a Supabase client exists, `writeOk`
whether the `users` upsert of lines 95-99 succeeds.  A failing upsert is
caught at lines 100-101 and logged (returned in the middle component); the
volatile write `context.user_data["task"] = task` of line 104 and the
language-selection reply of lines 120-124 happen regardless. -/
def buttonTask (ud : UserData) (task : String) (supabaseConfigured writeOk : Bool) :
    UserData × List String × List CbOut :=
  let logs := if supabaseConfigured && !writeOk then ["Supabase error (metadata)"] else []
  let ud' : UserData := ⟨some task, ud.lang⟩
  (ud', logs,
    [CbOut.editMsg ("Great! You chose *" ++ pyCapitalize task ++
      "*.\nNow, please select your preferred language:") true])

/-- The ready reply of src/api/index.py lines 165-171. -/
def readyReplyText (task lang : String) : String :=
  taskEmoji task ++ " Ready for *" ++ pyCapitalize task ++ "* in *" ++ lang ++
    "*! ✅\n\n📸 Please *upload an image or PDF* of your document now." ++
    "\n\n_I will process it and provide a detailed explanation._"

/-- The language branch of `button_callback` (src/api/index.py lines
127-171).  `writeOk` tells whether the `users` update of lines 133-135
succeeds; a failure is caught at lines 136-137 and logged.  The volatile
write `context.user_data["lang"] = lang` of line 139 happens next.  Then, if
the volatile task is falsy and a Supabase client exists, the handler runs
the `user_state` select of lines 143-146; this call sits OUTSIDE any
try/except, so when it raises (`durableRead = .error e`) the handler aborts
before the ready reply of lines 165-171 — the reply component is `none` and
no user-facing message is sent.  Otherwise the reply is built from the
loaded task (see `loadTaskLang`) and delivered. -/
def buttonLang (ud : UserData) (lang : String) (supabaseConfigured writeOk : Bool)
    (durableRead : Except String (Option String)) :
    UserData × List String × Option (List CbOut) :=
  let logs := if supabaseConfigured && !writeOk then ["Supabase error (interaction)"] else []
  let ud' : UserData := ⟨ud.task, some lang⟩
  if !pyTruthy ud'.task && supabaseConfigured then
    match durableRead with
    | .error _ => (ud', logs, none)
    | .ok dT =>
      let task := loadTaskLang ud'.task supabaseConfigured dT
      (ud', logs, some [CbOut.editMsg (readyReplyText task lang) true])
  else
    let task := loadTaskLang ud'.task supabaseConfigured none
    (ud', logs, some [CbOut.editMsg (readyReplyText task lang) true])

/-- The per-instance deduplication check of the webhook entry point
(src/api/index.py lines 284-289).  The Python set `processed_updates` is
modelled as a duplicate-free list; `set.pop()` removes one arbitrary element,
modelled by the `evict` parameter.  An already-seen id is rejected without a
state change; a fresh id is recorded, and when the set then holds more than
100 ids one element is evicted. -/
def dedupCheck (evict : List Nat → List Nat) (s : List Nat) (id : Nat) :
    Bool × List Nat :=
  if id ∈ s then (false, s)
  else
    let s' := s ++ [id]
    (true, if s'.length > 100 then evict s' else s')

/-- Folding `dedupCheck` over a sequence of incoming event ids, starting from
dedup state `s`. -/
def runDedup (evict : List Nat → List Nat) (l : List Nat) (s : List Nat) : List Nat :=
  l.foldl (fun st id => (dedupCheck evict st id).2) s

/-- The in-process session state of the polling variant:
`context.user_data` with the optional keys `type` and `language`
(src/bot.py lines 47, 62, 89-90). -/
structure BotUserData where
  type : Option String
  language : Option String
  deriving DecidableEq, Repr

/-- The JSON body of a relay response in the polling variant: the fields read
by src/bot.py lines 102, 111. -/
structure BotRespJson where
  analysis : Option String
  detail : Option String
  deriving DecidableEq, Repr

/-- A relay HTTP response as observed by src/bot.py: status code, parsed JSON
body (`.error e` models `response.json()` raising). -/
structure BotResponse where
  status : Nat
  body : Except String BotRespJson
  deriving Repr

/-- The outbound request built by src/bot.py lines 89-98. -/
structure BotRelayRequest where
  endpoint : String
  fileName : String
  fileBytes : List Nat
  language : Option String
  deriving DecidableEq, Repr

/-- An outbound message of the polling variant. -/
structure BotOut where
  text : String
  markdown : Bool
  deriving DecidableEq, Repr

/-- The chunking loop of src/bot.py lines 106-107:
`for i in range(0, len(analysis_text), 4000): ... analysis_text[i:i+4000]`.
Python `range(0, N, 4000)` has `(N + 3999) / 4000` elements, and the slice
`text[i:i+4000]` is `take 4000` after `drop i`. -/
def botChunks (t : String) : List String :=
  (List.range ((t.length + 3999) / 4000)).map fun i =>
    String.mk ((t.data.drop (4000 * i)).take 4000)

/-- The observable behaviour of `handle_document` (src/bot.py lines 71-118)
after the document bytes are in hand, as a function of the session and the
relay outcome (`.error e` models any raised exception, covering connection
errors, timeouts and JSON-parse failures surfacing at the outer handler of
lines 114-116).  Returns the request parameters of lines 89-98 and the
ordered outbound messages. -/
def botHandleDocument (ud : BotUserData) (fileName : String) (fileBytes : List Nat)
    (result : Except String BotResponse) : BotRelayRequest × List BotOut :=
  let endpoint :=
    if ud.type = some "analysis" then "/lab/read-analysis" else "/lab/read-medication"
  let req : BotRelayRequest := ⟨endpoint, fileName, fileBytes, ud.language⟩
  let processing : BotOut := ⟨"Processing your document... please wait. ⏳", false⟩
  let genericFail : BotOut := ⟨"❌ Failed to connect to the analysis service.", false⟩
  match result with
  | .error _ => (req, [processing, genericFail])
  | .ok r =>
    if r.status = 200 then
      match r.body with
      | .error _ => (req, [processing, genericFail])
      | .ok j =>
        let t := j.analysis.getD "No analysis found."
        if t.length > 4000 then
          (req, [processing] ++ (botChunks t).map fun c => ⟨c, true⟩)
        else
          (req, [processing, ⟨t, true⟩])
    else
      match r.body with
      | .error _ => (req, [processing, genericFail])
      | .ok j =>
        (req, [processing, ⟨"❌ Error from API: " ++ j.detail.getD "Unknown error", false⟩])

end LabReader

namespace LabReader

/-- C1 counterexample: the claim says that when both tiers hold a value and
disagree, the durable (Supabase) value is the one used.  In the code the
volatile `user_data` value wins: with volatile task `"medication"` and durable
task `"radiography"`, the load yields `"medication"`, not the durable value
(which is what the spec-modelled load would return). -/
theorem C1_counterexample :
    loadTaskLang (some "medication") true (some "radiography") = "medication" ∧
    loadTaskSpec (some "medication") (some "radiography") = "radiography" ∧
    ¬ loadTaskLang (some "medication") true (some "radiography") =
        loadTaskSpec (some "medication") (some "radiography") := by
  refine ⟨rfl, rfl, ?_⟩
  decide

/-- C1 (amended): the session-load prefers the volatile tier.  A truthy
volatile task is returned unchanged regardless of the durable value; the
durable tier is consulted only when the volatile value is missing or falsy
(and only in the language-selection step); when neither tier has a value the
default task `"analysis"` is used.  The document handler reads the volatile
tier only, with defaults `"analysis"` and `"English"`. -/
theorem C1_load_prefers_volatile :
    (∀ (v : String) (cfg : Bool) (d : Option String),
      v ≠ "" → loadTaskLang (some v) cfg d = v) ∧
    (∀ d : String, d ≠ "" → loadTaskLang none true (some d) = d) ∧
    (∀ cfg : Bool, loadTaskLang none cfg none = "analysis") ∧
    (∀ l : Option String, loadTaskFile ⟨none, l⟩ = "analysis") ∧
    (∀ (t : String) (l : Option String), loadTaskFile ⟨some t, l⟩ = t) ∧
    (∀ t : Option String, loadLangFile ⟨t, none⟩ = "English") := by
  refine ⟨?_, ?_, ?_, ?_, ?_, ?_⟩
  · intro v cfg d hv
    simp [loadTaskLang, pyTruthy, pyOrStr, hv]
  · intro d hd
    simp [loadTaskLang, pyTruthy, pyOrStr, hd]
  · intro cfg
    cases cfg <;> simp [loadTaskLang, pyTruthy, pyOrStr]
  · intro l; rfl
  · intro t l; rfl
  · intro t; rfl

/-- C1 witness: the amended load-precedence theorem applied at concrete
inputs. -/
theorem C1_load_prefers_volatile_witness :
    loadTaskLang (some "medication") true (some "radiography") = "medication" ∧
    loadTaskLang none true (some "prescription") = "prescription" ∧
    loadTaskLang none true none = "analysis" ∧
    loadTaskFile ⟨none, some "English"⟩ = "analysis" ∧
    loadTaskFile ⟨some "radiography", none⟩ = "radiography" ∧
    loadLangFile ⟨some "analysis", none⟩ = "English" := by
  obtain ⟨h1, h2, h3, h4, h5, h6⟩ := C1_load_prefers_volatile
  exact ⟨h1 "medication" true (some "radiography") (by decide),
         h2 "prescription" (by decide), h3 true,
         h4 (some "English"), h5 "radiography" none, h6 (some "analysis")⟩

/-- C2: a relay success (HTTP 200 with a parseable body) clears the session
to the default (task and language removed, src/api/index.py line 208) and
emits the main-menu reply (lines 251-255); a relay failure — a non-200
status, a 200 response whose body fails to parse, or a raised exception —
leaves the session completely unchanged, so the user can resend a document
without re-choosing task and language. -/
theorem C2_success_resets_failure_preserves (ud : UserData) (fb : List Nat)
    (rf vOk : Bool) :
    (∀ (j : RespJson) (raw : String),
      (handleFile ud fb (.ok ⟨200, .ok j, raw⟩) rf vOk).1 = ⟨none, none⟩ ∧
      Outgoing.menuReply DONE_MENU_MSG ∈
        (handleFile ud fb (.ok ⟨200, .ok j, raw⟩) rf vOk).2.2) ∧
    (∀ r : Response, r.status ≠ 200 → (handleFile ud fb (.ok r) rf vOk).1 = ud) ∧
    (∀ (e raw : String), (handleFile ud fb (.ok ⟨200, .error e, raw⟩) rf vOk).1 = ud) ∧
    (∀ e : String, (handleFile ud fb (.error e) rf vOk).1 = ud) := by
  refine ⟨?_, ?_, ?_, ?_⟩
  · intro j raw
    cases rf <;> rcases j with ⟨a, v, d⟩ <;> cases v <;> cases vOk <;>
      simp [handleFile]
  · intro r hr
    rcases r with ⟨st, body, raw⟩
    by_cases h429 : st = 429
    · subst h429
      cases body <;> simp [handleFile]
    · cases body <;> simp [handleFile, hr, h429]
  · intro e raw; rfl
  · intro e; rfl

/-- C2 witness: the success/failure session behaviour at concrete inputs. -/
theorem C2_success_resets_failure_preserves_witness :
    (handleFile ⟨some "medication", some "French"⟩ [1, 2]
      (.ok ⟨200, .ok ⟨some "ok", none, none⟩, ""⟩) false false).1 = ⟨none, none⟩ ∧
    Outgoing.menuReply DONE_MENU_MSG ∈
      (handleFile ⟨some "medication", some "French"⟩ [1, 2]
        (.ok ⟨200, .ok ⟨some "ok", none, none⟩, ""⟩) false false).2.2 ∧
    (handleFile ⟨some "medication", some "French"⟩ [1, 2]
      (.ok ⟨500, .ok ⟨none, none, some "boom"⟩, ""⟩) false false).1 =
      ⟨some "medication", some "French"⟩ ∧
    (handleFile ⟨some "medication", some "French"⟩ [1, 2]
      (.error "ReadTimeout") false false).1 = ⟨some "medication", some "French"⟩ := by
  obtain ⟨h1, h2, _, h4⟩ :=
    C2_success_resets_failure_preserves ⟨some "medication", some "French"⟩ [1, 2] false false
  obtain ⟨ha, hb⟩ := h1 ⟨some "ok", none, none⟩ ""
  exact ⟨ha, hb, h2 ⟨500, .ok ⟨none, none, some "boom"⟩, ""⟩ (by decide), h4 "ReadTimeout"⟩

/-- Helper for C3: processing a batch of at most `100 - s.length` further ids
never triggers an eviction, so every id already recorded in `s` and every id
of the batch is a member of the final dedup state. -/
theorem runDedup_retains (evict : List Nat → List Nat) :
    ∀ (l s : List Nat), s.length + l.length ≤ 100 →
      ∀ x, x ∈ s ∨ x ∈ l → x ∈ runDedup evict l s := by
  intro l
  induction l with
  | nil =>
    intro s _ x hx
    rcases hx with h | h
    · simpa [runDedup] using h
    · simp at h
  | cons id rest ih =>
    intro s h x hx
    have hstep : runDedup evict (id :: rest) s = runDedup evict rest (dedupCheck evict s id).2 :=
      rfl
    have hlen : s.length + rest.length + 1 ≤ 100 := by
      simp only [List.length_cons] at h; omega
    by_cases hid : id ∈ s
    · have hst : (dedupCheck evict s id).2 = s := by simp [dedupCheck, hid]
      rw [hstep, hst]
      refine ih s (by omega) x ?_
      rcases hx with h1 | h2
      · exact Or.inl h1
      · rcases List.mem_cons.mp h2 with rfl | hr
        · exact Or.inl hid
        · exact Or.inr hr
    · have hst : (dedupCheck evict s id).2 = s ++ [id] := by
        simp only [dedupCheck, if_neg hid]
        rw [if_neg (by simp; omega : ¬ (s ++ [id]).length > 100)]
      rw [hstep, hst]
      refine ih (s ++ [id]) (by simp; omega) x ?_
      rcases hx with h1 | h2
      · exact Or.inl (List.mem_append_left _ h1)
      · rcases List.mem_cons.mp h2 with rfl | hr
        · exact Or.inl (List.mem_append_right _ (by simp))
        · exact Or.inr hr

/-- C3: the first dedup check for an id accepts the event and records the
id; a check for an id that is still a member rejects it without a state
change; an accept-then-recheck in succession yields accept then reject
whenever the state holds at most 99 ids (so that the recorded id cannot be
evicted); and starting from an empty state, no id of the first 100 processed
ids loses its membership, for every eviction policy — so only after the
101st distinct id may the earliest id be evicted. -/
theorem C3_dedup_idempotent (evict : List Nat → List Nat) (s : List Nat) (id : Nat)
    (l : List Nat) :
    (id ∉ s → (dedupCheck evict s id).1 = true) ∧
    (id ∈ s → dedupCheck evict s id = (false, s)) ∧
    (id ∉ s → s.length ≤ 99 →
      (dedupCheck evict s id).1 = true ∧
      (dedupCheck evict (dedupCheck evict s id).2 id).1 = false ∧
      (dedupCheck evict (dedupCheck evict s id).2 id).2 = (dedupCheck evict s id).2) ∧
    (l.length ≤ 100 → ∀ x ∈ l, x ∈ runDedup evict l []) := by
  refine ⟨?_, ?_, ?_, ?_⟩
  · intro h; simp [dedupCheck, h]
  · intro h; simp [dedupCheck, h]
  · intro h hlen
    have hst : (dedupCheck evict s id).2 = s ++ [id] := by
      simp only [dedupCheck, if_neg h]
      rw [if_neg (by simp; omega : ¬ (s ++ [id]).length > 100)]
    refine ⟨by simp [dedupCheck, h], ?_, ?_⟩ <;> rw [hst] <;> simp [dedupCheck]
  · intro hlen x hx
    exact runDedup_retains evict l [] (by simpa using hlen) x (Or.inr hx)

/-- C3 witness: accept-then-reject on a concrete id and full retention of a
concrete batch, with `List.tail` as one concrete eviction policy. -/
theorem C3_dedup_idempotent_witness :
    (dedupCheck List.tail [] 7).1 = true ∧
    dedupCheck List.tail [3, 7] 7 = (false, [3, 7]) ∧
    ((dedupCheck List.tail [] 7).1 = true ∧
      (dedupCheck List.tail (dedupCheck List.tail [] 7).2 7).1 = false ∧
      (dedupCheck List.tail (dedupCheck List.tail [] 7).2 7).2 =
        (dedupCheck List.tail [] 7).2) ∧
    (∀ x ∈ [1, 2, 3], x ∈ runDedup List.tail [1, 2, 3] []) := by
  obtain ⟨h1, _, h3, h4⟩ := C3_dedup_idempotent List.tail [] 7 [1, 2, 3]
  obtain ⟨_, h2, _, _⟩ := C3_dedup_idempotent List.tail [3, 7] 7 [1, 2, 3]
  exact ⟨h1 (by decide), h2 (by decide), h3 (by decide) (by decide), h4 (by decide)⟩

/-- Helper for C4: concatenating a `String.join` at the character level. -/
theorem joinFoldl_data : ∀ (l : List String) (acc : String),
    (l.foldl (fun r s => r ++ s) acc).data = acc.data ++ (l.map String.data).flatten := by
  intro l
  induction l with
  | nil => intro acc; simp
  | cons x xs ih =>
    intro acc
    simp only [List.foldl_cons, List.map_cons, List.flatten_cons]
    rw [ih (acc ++ x)]
    show (acc.data ++ x.data) ++ _ = _
    rw [List.append_assoc]

/-- Helper for C4: the characters of a joined list of strings. -/
theorem stringJoin_data (l : List String) :
    (String.join l).data = (l.map String.data).flatten := by
  show (l.foldl (fun r s => r ++ s) "").data = _
  rw [joinFoldl_data]
  rfl

/-- Helper for C4: the first `k` slices of width `L` concatenate to the first
`L * k` characters. -/
theorem chunksFlatten (L : Nat) (d : List Char) :
    ∀ k : Nat, ((List.range k).map fun i => (d.drop (L * i)).take L).flatten =
      d.take (L * k) := by
  intro k
  induction k with
  | zero => simp
  | succ k ih =>
    rw [List.range_succ, List.map_append, List.flatten_append, ih]
    simp only [List.map_cons, List.map_nil, List.flatten_cons, List.flatten_nil,
      List.append_nil]
    rw [Nat.mul_succ, List.take_add]

/-- C4 (amended): in the polling variant (src/bot.py lines 104-109) a text of
length `N > 4000` is delivered as `(N + 3999) / 4000` — that is,
`ceil(N / 4000)` — segments, each of length at most 4000, whose in-order
concatenation is the original text.  The webhook variant performs no
chunking (see the counterexample). -/
theorem C4_chunking_law (t : String) (_hN : t.length > 4000) :
    (botChunks t).length = (t.length + 3999) / 4000 ∧
    (∀ c ∈ botChunks t, c.length ≤ 4000) ∧
    String.join (botChunks t) = t := by
  refine ⟨by simp [botChunks], ?_, ?_⟩
  · intro c hc
    simp only [botChunks, List.mem_map, List.mem_range] at hc
    obtain ⟨i, _, rfl⟩ := hc
    show ((t.data.drop (4000 * i)).take 4000).length ≤ 4000
    exact List.length_take_le _ _
  · apply String.ext
    rw [stringJoin_data]
    have hmap : (botChunks t).map String.data =
        (List.range ((t.length + 3999) / 4000)).map
          fun i => (t.data.drop (4000 * i)).take 4000 := by
      simp [botChunks, List.map_map]
    rw [hmap, chunksFlatten]
    apply List.take_of_length_le
    have h1 := Nat.div_add_mod (t.length + 3999) 4000
    have h2 : (t.length + 3999) % 4000 < 4000 := Nat.mod_lt _ (by norm_num)
    have hd : t.data.length = t.length := rfl
    omega

/-- C4 witness: the chunking law applied to a concrete 8001-character text,
which yields ceil(8001 / 4000) = 3 segments. -/
theorem C4_chunking_law_witness :
    (botChunks (String.mk (List.replicate 8001 'a'))).length =
      ((String.mk (List.replicate 8001 'a')).length + 3999) / 4000 ∧
    (∀ c ∈ botChunks (String.mk (List.replicate 8001 'a')), c.length ≤ 4000) ∧
    String.join (botChunks (String.mk (List.replicate 8001 'a'))) =
      String.mk (List.replicate 8001 'a') := by
  exact C4_chunking_law (String.mk (List.replicate 8001 'a'))
    (by show (List.replicate 8001 'a').length > 4000
        rw [List.length_replicate]; norm_num)

/-- C4 counterexample: the claim fails on the webhook variant
(src/api/index.py lines 210-219): an 8000-character analysis is delivered
there as a single unsegmented message of length 8000 > 4000, not as
ceil(8000 / 4000) = 2 segments of length at most 4000. -/
theorem C4_counterexample :
    (handleFile ⟨some "analysis", some "English"⟩ []
      (.ok ⟨200, .ok ⟨some (String.mk (List.replicate 8000 'a')), none, none⟩, ""⟩)
      true true).2.2 =
      [Outgoing.reply "Processing your analysis in English... ⏳" false,
       Outgoing.editStatus (String.mk (List.replicate 8000 'a')) false,
       Outgoing.menuReply DONE_MENU_MSG] ∧
    (String.mk (List.replicate 8000 'a')).length = 8000 ∧
    ¬ (String.mk (List.replicate 8000 'a')).length ≤ 4000 ∧
    (8000 + 3999) / 4000 = 2 := by
  refine ⟨rfl, ?_, ?_, by norm_num⟩
  · show (List.replicate 8000 'a').length = 8000
    rw [List.length_replicate]
  · show ¬ (List.replicate 8000 'a').length ≤ 4000
    rw [List.length_replicate]
    norm_num

/-- C5 (amended): in the webhook variant a transport/network failure of the
relay (any raised exception, including a timeout or a connection error)
produces the message `"❌ Error: " ++ e` carrying the failure description `e`
verbatim (src/api/index.py lines 265-267), so different failure kinds yield
different messages; the polling variant instead replies with a fixed generic
message (see the counterexample). -/
theorem C5_error_detail_surfaced (ud : UserData) (fb : List Nat) (rf vOk : Bool)
    (e : String) :
    (handleFile ud fb (.error e) rf vOk).2.2 =
      [Outgoing.reply (processingMsg (loadTaskFile ud) (loadLangFile ud)) false,
       Outgoing.editStatus ("❌ Error: " ++ e) false] ∧
    (handleFile ud fb (.error "ReadTimeout: timed out") rf vOk).2.2 ≠
      (handleFile ud fb (.error "ConnectError: connection refused") rf vOk).2.2 := by
  refine ⟨rfl, ?_⟩
  simp only [handleFile]
  intro hcontra
  have := List.cons.injEq .. ▸ hcontra
  simp at this

/-- C5 counterexample: the polling variant (src/bot.py lines 114-116) answers
every relay exception — timeout and connection failure alike — with the same
fixed generic message, which carries no description of the underlying
failure, so a timeout cannot be distinguished from a connectivity issue. -/
theorem C5_counterexample :
    (botHandleDocument ⟨some "analysis", some "English"⟩ "doc.pdf" []
      (.error "ReadTimeout: timed out")).2 =
      [⟨"Processing your document... please wait. ⏳", false⟩,
       ⟨"❌ Failed to connect to the analysis service.", false⟩] ∧
    botHandleDocument ⟨some "analysis", some "English"⟩ "doc.pdf" []
      (.error "ReadTimeout: timed out") =
    botHandleDocument ⟨some "analysis", some "English"⟩ "doc.pdf" []
      (.error "ConnectError: connection refused") :=
  ⟨rfl, rfl⟩

/-- Helper for C6 and C7: the relay request of `handle_file` is determined by
the stored session alone: endpoint `/lab/read-{task}`, file part
`document.pdf`, the document bytes, and the stored language. -/
theorem handleFile_req (ud : UserData) (fb : List Nat) (res : Except String Response)
    (rf vOk : Bool) :
    (handleFile ud fb res rf vOk).2.1 =
      ⟨"/lab/read-" ++ loadTaskFile ud, "document.pdf", fb, loadLangFile ud⟩ := by
  rcases res with e | ⟨st, body, raw⟩
  · rfl
  · by_cases h200 : st = 200
    · subst h200
      cases body
      · rfl
      · cases rf <;> rfl
    · by_cases h429 : st = 429
      · subst h429
        cases body <;> simp [handleFile]
      · cases body <;> simp [handleFile, h200, h429]

/-- C6 (amended): in the webhook variant every stored task in {analysis,
medication, prescription, radiography} is relayed to its own route
`/lab/read-{task}` with the document bytes as the multipart file part and the
stored language as parameter (src/api/index.py lines 197-203).  The polling
variant only distinguishes analysis from everything else (see the
counterexample). -/
theorem C6_route_selected_by_task (l : String) (fb : List Nat)
    (res : Except String Response) (rf vOk : Bool) :
    (handleFile ⟨some "analysis", some l⟩ fb res rf vOk).2.1 =
      ⟨"/lab/read-analysis", "document.pdf", fb, l⟩ ∧
    (handleFile ⟨some "medication", some l⟩ fb res rf vOk).2.1 =
      ⟨"/lab/read-medication", "document.pdf", fb, l⟩ ∧
    (handleFile ⟨some "prescription", some l⟩ fb res rf vOk).2.1 =
      ⟨"/lab/read-prescription", "document.pdf", fb, l⟩ ∧
    (handleFile ⟨some "radiography", some l⟩ fb res rf vOk).2.1 =
      ⟨"/lab/read-radiography", "document.pdf", fb, l⟩ := by
  refine ⟨?_, ?_, ?_, ?_⟩ <;> rw [handleFile_req] <;> rfl

/-- C6 counterexample: in the polling variant (src/bot.py line 91) a stored
task `"prescription"` is relayed to `/lab/read-medication`, not to the
task-determined route `/lab/read-prescription`. -/
theorem C6_counterexample :
    (botHandleDocument ⟨some "prescription", some "English"⟩ "doc.pdf" []
      (.ok ⟨200, .ok ⟨some "text", none⟩⟩)).1.endpoint = "/lab/read-medication" ∧
    "/lab/read-medication" ≠ "/lab/read-prescription" := by
  exact ⟨rfl, by decide⟩

/-- C7 (amended): in the webhook variant an HTTP 429 relay response produces
exactly the distinct quota-exceeded message — which advises waiting about 60
seconds — and leaves the session unchanged, so resending a document retries
the relay (src/api/index.py lines 256-257).  The polling variant treats a 429
like any other error (see the counterexample). -/
theorem C7_rate_limit_message (ud : UserData) (fb : List Nat) (rf vOk : Bool)
    (body : Except String RespJson) (raw : String) :
    handleFile ud fb (.ok ⟨429, body, raw⟩) rf vOk =
      (ud, ⟨"/lab/read-" ++ loadTaskFile ud, "document.pdf", fb, loadLangFile ud⟩,
       [Outgoing.reply (processingMsg (loadTaskFile ud) (loadLangFile ud)) false,
        Outgoing.editStatus RATE_LIMIT_MSG true]) ∧
    RATE_LIMIT_MSG =
      "⚠️ **Gemini API Quota Exceeded**\n\nPlease wait about " ++ "60 seconds" ++
        " and try again." := by
  refine ⟨?_, by decide⟩
  cases body <;> rfl

/-- C7 counterexample: the polling variant (src/bot.py lines 110-112) handles
a 429 response exactly like a 500 response with the same body, replying with
the generic API-error text and no rate-limit-specific retry advice. -/
theorem C7_counterexample :
    botHandleDocument ⟨some "analysis", some "English"⟩ "doc.pdf" []
      (.ok ⟨429, .ok ⟨none, some "Quota exceeded"⟩⟩) =
    botHandleDocument ⟨some "analysis", some "English"⟩ "doc.pdf" []
      (.ok ⟨500, .ok ⟨none, some "Quota exceeded"⟩⟩) ∧
    (botHandleDocument ⟨some "analysis", some "English"⟩ "doc.pdf" []
      (.ok ⟨429, .ok ⟨none, some "Quota exceeded"⟩⟩)).2 =
      [⟨"Processing your document... please wait. ⏳", false⟩,
       ⟨"❌ Error from API: Quota exceeded", false⟩] :=
  ⟨rfl, rfl⟩

/-- C8: on a successful analysis response the text is sanitized — code-fence
markers removed, double-star bold normalized to single stars, surrounding
whitespace stripped — and sent with Markdown formatting; if that send fails,
the unmodified raw text is sent plain instead, so the response is never lost
(src/api/index.py lines 210-219). -/
theorem C8_sanitize_with_raw_fallback (ud : UserData) (fb : List Nat) (vOk : Bool)
    (a : String) (voice detail : Option String) (raw : String) :
    (handleFile ud fb (.ok ⟨200, .ok ⟨some a, voice, detail⟩, raw⟩) false vOk).2.2 =
      [Outgoing.reply (processingMsg (loadTaskFile ud) (loadLangFile ud)) false,
       Outgoing.editStatus (sanitize a) true] ++
      (match voice with
        | some _ => if vOk then [Outgoing.voiceNote] else []
        | none => []) ++
      [Outgoing.menuReply DONE_MENU_MSG] ∧
    (handleFile ud fb (.ok ⟨200, .ok ⟨some a, voice, detail⟩, raw⟩) true vOk).2.2 =
      [Outgoing.reply (processingMsg (loadTaskFile ud) (loadLangFile ud)) false,
       Outgoing.editStatus a false] ++
      (match voice with
        | some _ => if vOk then [Outgoing.voiceNote] else []
        | none => []) ++
      [Outgoing.menuReply DONE_MENU_MSG] ∧
    sanitize "```markdown\n**Results**\n```" = "*Results*" := by
  refine ⟨?_, ?_, by decide⟩ <;> cases voice <;> cases vOk <;> rfl

/-- C9: the claim fails on the code.  At the failing input — a language
selection arriving on a cold instance (empty volatile state) with Supabase
configured but unreachable — the failed durable write of src/api/index.py
lines 133-135 is caught and logged and the volatile language is still
stored, but the handler then reaches the unguarded `user_state` read of
lines 143-146, which raises and aborts the turn before the reply of lines
165-171: no user-facing message is delivered (reply component `none`).  With
the same session and a successful read the reply is delivered, isolating the
unguarded read as the aborting step. -/
theorem C9_turn_aborts_on_unguarded_read :
    buttonLang ⟨none, none⟩ "French" true false
        (.error "ConnectError: connection refused") =
      (⟨none, some "French"⟩, ["Supabase error (interaction)"], none) ∧
    buttonLang ⟨none, none⟩ "French" true false (.ok none) =
      (⟨none, some "French"⟩, ["Supabase error (interaction)"],
       some [CbOut.editMsg (readyReplyText "analysis" "French") true]) :=
  ⟨rfl, rfl⟩

/-- C10: a 200 relay response whose JSON body has no `analysis` field yields
the placeholder text — `"No results."` in the webhook variant
(src/api/index.py line 206), `"No analysis found."` in the polling variant
(src/bot.py line 102) — and the webhook turn is otherwise a success,
including the session reset and the main-menu reply; no error is reported. -/
theorem C10_missing_analysis_placeholder (ud : UserData) (fb : List Nat) (rf : Bool)
    (detail : Option String) (raw : String) (bud : BotUserData) (fn : String)
    (bdetail : Option String) :
    (handleFile ud fb (.ok ⟨200, .ok ⟨none, none, detail⟩, raw⟩) rf false).1 =
      ⟨none, none⟩ ∧
    (handleFile ud fb (.ok ⟨200, .ok ⟨none, none, detail⟩, raw⟩) rf false).2.2 =
      [Outgoing.reply (processingMsg (loadTaskFile ud) (loadLangFile ud)) false,
       (if rf then Outgoing.editStatus "No results." false
        else Outgoing.editStatus "No results." true),
       Outgoing.menuReply DONE_MENU_MSG] ∧
    (botHandleDocument bud fn fb (.ok ⟨200, .ok ⟨none, bdetail⟩⟩)).2 =
      [⟨"Processing your document... please wait. ⏳", false⟩,
       ⟨"No analysis found.", true⟩] := by
  have hs : sanitize "No results." = "No results." := by decide
  refine ⟨?_, ?_, rfl⟩ <;> cases rf <;> simp [handleFile, hs]

end LabReader
